import Mathlib

/-!
Shallow embedding of `src/app/example-plain-app/python-fast-api/app/main.py`.

The program exposes a single operation, `build_payload`, that reads three
environment variables (`BUILD_TIME`, `GIT_SHA`, `SERVICE_VERSION`) with
fallback defaults and assembles a fixed-shape record.  The process
environment is modelled as a partial map `String → Option String`
(`none` = variable unset; Python's `os.getenv` returns `None` there).
The system clock is modelled as an input `Instant`; the rendering
performed by Python's `datetime.isoformat()` on a UTC-aware datetime is
embedded as `isoformat` below.
-/

/-- One entry of the hardcoded dependency list: `{"name": ..., "version": ...}`. -/
structure Dependency where
  name : String
  version : String
deriving DecidableEq, Repr

/-- The record returned by `build_payload` (the body of the `/info` response). -/
structure Payload where
  serviceName : String
  techStack : String
  buildTime : String
  gitSha : String
  buildVersion : String
  dependencies : List Dependency
deriving DecidableEq, Repr

/-- A UTC instant, the value produced by `datetime.now(timezone.utc)`. -/
structure Instant where
  year : Nat
  month : Nat
  day : Nat
  hour : Nat
  minute : Nat
  second : Nat
  microsecond : Nat
deriving DecidableEq, Repr

/-- Left-pad the decimal rendering of `n` with zeros to width `w`. -/
def padZero (w : Nat) (n : Nat) : String :=
  let s := toString n
  String.mk (List.replicate (w - s.length) (Char.ofNat 48)) ++ s

/-- `datetime.isoformat()` on a UTC-aware datetime:
`YYYY-MM-DDTHH:MM:SS[.ffffff]+00:00`, the microseconds part omitted when zero. -/
def isoformat (t : Instant) : String :=
  padZero 4 t.year ++ "-" ++ padZero 2 t.month ++ "-" ++ padZero 2 t.day ++ "T" ++
  padZero 2 t.hour ++ ":" ++ padZero 2 t.minute ++ ":" ++ padZero 2 t.second ++
  (if t.microsecond = 0 then "" else "." ++ padZero 6 t.microsecond) ++ "+00:00"

/-- `_env(key, fallback)`: `value = os.getenv(key); return value if value else fallback`.
Both `None` (unset) and `""` are falsy in Python, so both select the fallback. -/
def _env (env : String → Option String) (key : String) (fallback : String) : String :=
  match env key with
  | some value => if value = "" then fallback else value
  | none => fallback

/-- `build_payload()`.  The clock is an explicit input; the second component of
the result counts system-clock reads.  In the source the fallback argument
`datetime.now(timezone.utc).isoformat()` is evaluated before `_env` is entered
(Python evaluates arguments strictly), so each call reads the clock exactly
once whether or not `BUILD_TIME` is set. -/
def build_payload (env : String → Option String) (clock : Instant) : Payload × Nat :=
  let nowRead : String × Nat := (isoformat clock, 1)
  let build_time := _env env "BUILD_TIME" nowRead.1
  let git_sha := _env env "GIT_SHA" "dev-snapshot"
  let version := _env env "SERVICE_VERSION" "0.0.0"
  let dependencies : List Dependency :=
    [⟨"fastapi", "0.115.6"⟩, ⟨"uvicorn", "0.32.1"⟩, ⟨"httpx", "0.27.2"⟩]
  ({ serviceName := "Invoice API"
     techStack := "Python 3.11 + FastAPI"
     buildTime := build_time
     gitSha := git_sha
     buildVersion := version
     dependencies := dependencies }, nowRead.2)

/-- The empty environment: every variable unset. -/
def emptyEnv : String → Option String := fun _ => none

/-- A sample instant used to instantiate clock arguments in witnesses. -/
def epoch : Instant := ⟨2024, 1, 1, 0, 0, 0, 0⟩

/-- The concrete environment of the spec's scenario:
`{GIT_SHA: "abc123", SERVICE_VERSION: "1.2.3", BUILD_TIME: "2024-01-01T00:00:00Z"}`. -/
def scenarioEnv : String → Option String := fun k =>
  if k = "GIT_SHA" then some "abc123"
  else if k = "SERVICE_VERSION" then some "1.2.3"
  else if k = "BUILD_TIME" then some "2024-01-01T00:00:00Z"
  else none

/-- An environment that binds one extra, unrelated variable on top of the
scenario environment. -/
def scenarioEnvExtra : String → Option String := fun k =>
  if k = "SOME_OTHER_VAR" then some "noise" else scenarioEnv k

/-- Either the fallback is returned, or the environment holds exactly the
returned value: `_env` never invents a third possibility. -/
theorem _env_cases (env : String → Option String) (key fallback : String) :
    _env env key fallback = fallback ∨ env key = some (_env env key fallback) := by
  unfold _env
  cases h : env key with
  | none => exact Or.inl rfl
  | some v =>
    by_cases hv : v = ""
    · simp [hv]
    · simp [hv]

/-- C1: for every environment in which GIT_SHA and SERVICE_VERSION are set to
non-empty strings g and v, the record returned by build_payload has gitSha
equal to g and buildVersion equal to v. -/
theorem build_payload_set_vars (env : String → Option String) (t : Instant)
    (g v : String) (hg : env "GIT_SHA" = some g) (hg0 : g ≠ "")
    (hv : env "SERVICE_VERSION" = some v) (hv0 : v ≠ "") :
    (build_payload env t).1.gitSha = g ∧ (build_payload env t).1.buildVersion = v := by
  constructor <;> simp [build_payload, _env, hg, hg0, hv, hv0]

/-- Witness for C1 at the spec's concrete scenario environment. -/
theorem build_payload_set_vars_witness :
    (build_payload scenarioEnv epoch).1.gitSha = "abc123" ∧
    (build_payload scenarioEnv epoch).1.buildVersion = "1.2.3" :=
  build_payload_set_vars scenarioEnv epoch "abc123" "1.2.3" rfl (by decide) rfl (by decide)

/-- C2: when GIT_SHA is unset or empty the returned gitSha is "dev-snapshot",
and when SERVICE_VERSION is unset or empty the returned buildVersion is
"0.0.0". -/
theorem build_payload_fallback_defaults (env : String → Option String) (t : Instant) :
    ((env "GIT_SHA" = none ∨ env "GIT_SHA" = some "") →
      (build_payload env t).1.gitSha = "dev-snapshot") ∧
    ((env "SERVICE_VERSION" = none ∨ env "SERVICE_VERSION" = some "") →
      (build_payload env t).1.buildVersion = "0.0.0") := by
  constructor <;> rintro (h | h) <;> simp [build_payload, _env, h]

/-- Witness for C2 at the empty environment. -/
theorem build_payload_fallback_defaults_witness :
    (build_payload emptyEnv epoch).1.gitSha = "dev-snapshot" ∧
    (build_payload emptyEnv epoch).1.buildVersion = "0.0.0" :=
  ⟨(build_payload_fallback_defaults emptyEnv epoch).1 (Or.inl rfl),
   (build_payload_fallback_defaults emptyEnv epoch).2 (Or.inl rfl)⟩

/-- C3: when BUILD_TIME is unset, the returned buildTime is the ISO-8601
rendering of the call-time instant, recomputed from the instant of each
call. -/
theorem build_payload_buildTime_fresh (env : String → Option String) (t : Instant)
    (h : env "BUILD_TIME" = none) :
    (build_payload env t).1.buildTime = isoformat t := by
  simp [build_payload, _env, h]

/-- Witness for C3: the empty environment at the sample instant yields that
instant's ISO-8601 rendering. -/
theorem build_payload_buildTime_fresh_witness :
    (build_payload emptyEnv epoch).1.buildTime = "2024-01-01T00:00:00+00:00" :=
  (build_payload_buildTime_fresh emptyEnv epoch rfl).trans (by decide)

/-- C4: for every environment and instant, the returned record has
serviceName "Invoice API", techStack "Python 3.11 + FastAPI", and the fixed
three-element dependency list. -/
theorem build_payload_fixed_shape (env : String → Option String) (t : Instant) :
    (build_payload env t).1.serviceName = "Invoice API" ∧
    (build_payload env t).1.techStack = "Python 3.11 + FastAPI" ∧
    (build_payload env t).1.dependencies =
      [⟨"fastapi", "0.115.6"⟩, ⟨"uvicorn", "0.32.1"⟩, ⟨"httpx", "0.27.2"⟩] :=
  ⟨rfl, rfl, rfl⟩

/-- C5: when BUILD_TIME is set to a non-empty string, two calls under the
identical environment yield identical records, whatever the clock reads at
each call. -/
theorem build_payload_deterministic (env : String → Option String)
    (t₁ t₂ : Instant) (b : String) (hb : env "BUILD_TIME" = some b) (hb0 : b ≠ "") :
    (build_payload env t₁).1 = (build_payload env t₂).1 := by
  simp [build_payload, _env, hb, hb0]

/-- Witness for C5: the scenario environment gives the same record at two
distinct instants. -/
theorem build_payload_deterministic_witness :
    (build_payload scenarioEnv epoch).1 =
      (build_payload scenarioEnv ⟨2030, 12, 31, 23, 59, 59, 999999⟩).1 :=
  build_payload_deterministic scenarioEnv epoch ⟨2030, 12, 31, 23, 59, 59, 999999⟩
    "2024-01-01T00:00:00Z" rfl (by decide)

/-- C6: under the environment {GIT_SHA: "abc123", SERVICE_VERSION: "1.2.3",
BUILD_TIME: "2024-01-01T00:00:00Z"}, build_payload returns exactly the
documented record, whatever the clock reads. -/
theorem build_payload_scenario (t : Instant) :
    (build_payload scenarioEnv t).1 =
      { serviceName := "Invoice API"
        techStack := "Python 3.11 + FastAPI"
        buildTime := "2024-01-01T00:00:00Z"
        gitSha := "abc123"
        buildVersion := "1.2.3"
        dependencies := [⟨"fastapi", "0.115.6"⟩, ⟨"uvicorn", "0.32.1"⟩, ⟨"httpx", "0.27.2"⟩] } := by
  simp [build_payload, _env, scenarioEnv]

/-- C7 counterexample: with BUILD_TIME set to a non-empty string the clock is
still read (the fallback argument is evaluated before `_env` runs), so the
number of clock reads is not zero. -/
theorem build_payload_clock_read_counterexample :
    ¬ (build_payload scenarioEnv epoch).2 = 0 := by
  decide

/-- C7 amended: every call reads the system clock exactly once, whether or not
BUILD_TIME is set; when BUILD_TIME is set to a non-empty string the returned
record nevertheless does not depend on the clock value. -/
theorem build_payload_clock_always_read (env : String → Option String) (t₁ t₂ : Instant) :
    (build_payload env t₁).2 = 1 ∧
    ((∃ b, env "BUILD_TIME" = some b ∧ b ≠ "") →
      (build_payload env t₁).1 = (build_payload env t₂).1) := by
  refine ⟨rfl, ?_⟩
  rintro ⟨b, hb, hb0⟩
  simp [build_payload, _env, hb, hb0]

/-- Witness for the amended C7 at the scenario environment. -/
theorem build_payload_clock_always_read_witness :
    (build_payload scenarioEnv epoch).2 = 1 ∧
    (build_payload scenarioEnv epoch).1 =
      (build_payload scenarioEnv ⟨2030, 12, 31, 23, 59, 59, 999999⟩).1 :=
  ⟨(build_payload_clock_always_read scenarioEnv epoch epoch).1,
   (build_payload_clock_always_read scenarioEnv epoch
      ⟨2030, 12, 31, 23, 59, 59, 999999⟩).2 ⟨"2024-01-01T00:00:00Z", rfl, by decide⟩⟩

/-- C8: build_payload is total: for every environment (its variable values
arbitrary, opaque strings) and every instant, the returned record has the
documented fixed fields, and each configurable field carries either the
documented fallback or exactly the string stored in the environment: no
branch fails and no value is parsed or rejected. -/
theorem build_payload_total (env : String → Option String) (t : Instant) :
    ((build_payload env t).1.serviceName = "Invoice API" ∧
     (build_payload env t).1.techStack = "Python 3.11 + FastAPI" ∧
     (build_payload env t).1.dependencies =
       [⟨"fastapi", "0.115.6"⟩, ⟨"uvicorn", "0.32.1"⟩, ⟨"httpx", "0.27.2"⟩]) ∧
    ((build_payload env t).1.buildTime = isoformat t ∨
      env "BUILD_TIME" = some (build_payload env t).1.buildTime) ∧
    ((build_payload env t).1.gitSha = "dev-snapshot" ∨
      env "GIT_SHA" = some (build_payload env t).1.gitSha) ∧
    ((build_payload env t).1.buildVersion = "0.0.0" ∨
      env "SERVICE_VERSION" = some (build_payload env t).1.buildVersion) :=
  ⟨⟨rfl, rfl, rfl⟩, _env_cases env "BUILD_TIME" (isoformat t),
   _env_cases env "GIT_SHA" "dev-snapshot",
   _env_cases env "SERVICE_VERSION" "0.0.0"⟩

/-- C9: `_env` returns the fallback exactly when the variable is unset or
bound to the empty string; every other value, a whitespace-only string
included, comes back unchanged. -/
theorem _env_fallback_iff (env : String → Option String) (key fb : String) :
    ((env key = none ∨ env key = some "") → _env env key fb = fb) ∧
    (∀ v, env key = some v → v ≠ "" → _env env key fb = v) := by
  constructor
  · rintro (h | h) <;> simp [_env, h]
  · intro v hv hv0
    simp [_env, hv, hv0]

/-- Witness for C9: a whitespace-only value " " is returned unchanged, and an
unset variable yields the fallback. -/
theorem _env_fallback_iff_witness :
    _env (fun k => if k = "GIT_SHA" then some " " else none) "GIT_SHA" "dev-snapshot" = " " ∧
    _env emptyEnv "GIT_SHA" "dev-snapshot" = "dev-snapshot" :=
  ⟨(_env_fallback_iff (fun k => if k = "GIT_SHA" then some " " else none)
      "GIT_SHA" "dev-snapshot").2 " " (by decide) (by decide),
   (_env_fallback_iff emptyEnv "GIT_SHA" "dev-snapshot").1 (Or.inl rfl)⟩

/-- C10: the output depends on no environment variable beyond BUILD_TIME,
GIT_SHA and SERVICE_VERSION: two environments agreeing on those three give
the same result at the same instant. -/
theorem build_payload_env_dependence (env₁ env₂ : String → Option String) (t : Instant)
    (hb : env₁ "BUILD_TIME" = env₂ "BUILD_TIME")
    (hg : env₁ "GIT_SHA" = env₂ "GIT_SHA")
    (hv : env₁ "SERVICE_VERSION" = env₂ "SERVICE_VERSION") :
    build_payload env₁ t = build_payload env₂ t := by
  simp [build_payload, _env, hb, hg, hv]

/-- Witness for C10: adding an unrelated variable to the scenario environment
does not change the result. -/
theorem build_payload_env_dependence_witness :
    build_payload scenarioEnv epoch = build_payload scenarioEnvExtra epoch :=
  build_payload_env_dependence scenarioEnv scenarioEnvExtra epoch
    (by decide) (by decide) (by decide)
